import Mathlib

/-!
Verification of the `video_processing_engine` repository: a shallow
embedding of the program's data flow and decision logic, with theorems
settling the specification's claims about it.

Conventions of the embedding:
* Pure string manipulation (URL splitting, percent-decoding, basename,
  path joining) is translated directly from the source (and, for the
  Python standard-library helpers the source calls, from their documented
  behaviour on ASCII inputs).
* External effects (network transfers, the transcoder, the trim / compress
  subprocesses) are either abstracted into oracle parameters (a boolean
  "the transfer completed", the byte count actually written, the segment
  duration reported by the prober) or into free constructors of a file
  provenance type `VFile`, so that which file ends up on which list is
  provable while the unknowable content stays symbolic.
* Fallible Python code becomes `Except` / sum-shaped results; an uncaught
  Python exception is a dedicated constructor, distinct from a returned
  failure pair.
-/

namespace VPE

/-! ## Percent-decoding, basename and URL splitting

Models of `urllib.parse.unquote`, `os.path.basename` and
`urllib.parse.urlsplit(...).path` as used by
`video_processing_engine/utils/downloads.py`.  `unquote` is modelled at
the byte/ASCII level: a `%` followed by two hex digits becomes the
character with that code, an ill-formed escape is kept verbatim. -/

def isHexDigit (c : Char) : Bool :=
  c.isDigit || ('a' ≤ c && c ≤ 'f') || ('A' ≤ c && c ≤ 'F')

def hexVal (c : Char) : Nat :=
  if c.isDigit then c.toNat - 48
  else if 'a' ≤ c && c ≤ 'f' then c.toNat - 87
  else c.toNat - 55

def unquoteChars : List Char → List Char
  | [] => []
  | '%' :: a :: b :: rest =>
      if isHexDigit a && isHexDigit b then
        Char.ofNat (16 * hexVal a + hexVal b) :: unquoteChars rest
      else
        '%' :: unquoteChars (a :: b :: rest)
  | c :: rest => c :: unquoteChars rest

def unquote (s : String) : String :=
  ⟨unquoteChars s.data⟩

/-- Model of `os.path.basename` (POSIX): everything after the last `/`. -/
def basename (s : String) : String :=
  ⟨(s.data.reverse.takeWhile (fun c => c ≠ '/')).reverse⟩

/-- Model of `posixpath.join` for the two-argument calls the source makes:
an absolute second component wins; otherwise a `/` separates unless the
first component is empty or already ends with `/`. -/
def joinPath (a b : String) : String :=
  if b.data.head? = some '/' then b
  else if a = "" || a.data.getLast? = some '/' then a ++ b
  else a ++ "/" ++ b

def isSchemeChar (c : Char) : Bool :=
  c.isAlphanum || c = '+' || c = '-' || c = '.'

/-- Scheme removal step of `urllib.parse.urlsplit`: if a `:` occurs after a
nonempty run of scheme characters whose first is a letter, everything up to
and including the `:` is the scheme and is dropped. -/
def dropScheme (l : List Char) : List Char :=
  match l.dropWhile (fun c => c ≠ ':') with
  | [] => l
  | _ :: rest =>
      let pre := l.takeWhile (fun c => c ≠ ':')
      match pre with
      | [] => l
      | c :: _ => if c.isAlpha && pre.all isSchemeChar then rest else l

/-- Netloc removal step of `urllib.parse.urlsplit`: after the scheme, a
leading `//` introduces the network location, which extends to the first
`/`, `?` or `#`. -/
def dropNetloc : List Char → List Char
  | '/' :: '/' :: rest =>
      rest.dropWhile (fun c => c ≠ '/' && c ≠ '?' && c ≠ '#')
  | l => l

/-- Model of `urllib.parse.urlsplit(url).path`: strip scheme and netloc,
then truncate at the first fragment (`#`) and query (`?`) marker. -/
def urlsplitPath (url : String) : String :=
  ⟨((dropNetloc (dropScheme url.data)).takeWhile (fun c => c ≠ '#')).takeWhile
      (fun c => c ≠ '?')⟩

/-! ## `filename_from_url` (utils/downloads.py, lines 20-37) -/

def invalidUrlMsg : String :=
  "[e] URL has invalid characters. Cannot parse the same."

/-- Translation of `filename_from_url`: extract the URL path, percent-decode
it and take its basename; raise `ValueError` (modelled as `Except.error`)
when that decoded basename is not its own basename or when decoding the raw
basename gives a different string. -/
def filename_from_url (public_url : String) : Except String String :=
  let url_path := urlsplitPath public_url
  let bn := basename (unquote url_path)
  if basename bn ≠ bn ∨ unquote (basename url_path) ≠ bn then
    Except.error invalidUrlMsg
  else
    Except.ok bn

/-! ## `download_from_url` (utils/downloads.py, lines 40-74)

The HTTP request is abstracted into the oracle `transportOk`; a request
that fails is what the `except (RequestError, RequestException)` clause
catches.  A `ValueError` raised by `filename_from_url` is *not* caught by
that clause and escapes the function, which the model records with the
`raises` constructor. -/

inductive DlResult where
  | ret (success : Option Bool) (message : String)
  | raises (message : String)
  deriving DecidableEq, Repr

def download_from_url (transportOk : Bool) (public_url : String)
    (filename : Option String) (download_path : String) : DlResult :=
  if transportOk then
    match filename with
    | some f => DlResult.ret (some true) (joinPath download_path f)
    | none =>
        match filename_from_url public_url with
        | Except.ok f => DlResult.ret (some true) (joinPath download_path f)
        | Except.error e => DlResult.raises e
  else
    DlResult.ret none "[e] Error while downloading file"

/-! ## File-size classification and the three storage connectors

`file_size` lives in `video_processing_engine/utils/common.py`, which is
not part of the sources provided; only the unit suffix it selects is
observable through the connectors' `endswith('KB')` test. -/

/-- Modelled from the spec: `file_size` (utils/common.py) is absent from
src/.  Per §4.5 it renders a byte count using binary 1024-based unit steps
with explicit suffixes `bytes, KB, MB, GB, TB, PB`; the connectors only
inspect the suffix, so the model returns the selected unit for a given
byte count. -/
def file_size_unit (size : Nat) : String :=
  if size < 1024 then "bytes"
  else if size < 1024 * 1024 then "KB"
  else if size < 1024 * 1024 * 1024 then "MB"
  else if size < 1024 * 1024 * 1024 * 1024 then "GB"
  else if size < 1024 * 1024 * 1024 * 1024 * 1024 then "TB"
  else "PB"

/-- Translation of `download_from_google_drive` (utils/downloads.py, lines
87-137), with the Drive session abstracted to the oracle `netOk` (false
exactly when `requests` raises, taking the `except` branch) and the bytes
written to `<file_name>.mp4` abstracted to `size`. -/
def download_from_google_drive (netOk : Bool) (download_path file_name : String)
    (size : Nat) : Option Bool × String :=
  if netOk then
    if file_size_unit size = "KB" then
      (none, "[w] Unusable file downloaded.")
    else
      (some true, joinPath download_path (file_name ++ ".mp4"))
  else
    (none, "[e] Error while downloading file")

/-- Translation of `download_from_azure` (utils/downloads.py, lines
150-189); the blob client is abstracted exactly as for Google Drive. -/
def download_from_azure (netOk : Bool) (download_path file_name : String)
    (size : Nat) : Option Bool × String :=
  if netOk then
    if file_size_unit size = "KB" then
      (none, "[w] Unusable file downloaded.")
    else
      (some true, joinPath download_path (file_name ++ ".mp4"))
  else
    (none, "[e] Error while downloading file")

/-- Translation of `download_using_ftp` (utils/downloads.py, lines
200-233); the `sshpass`/`scp` subprocess is abstracted to `netOk` (false
exactly when `os.system` raises `OSError`). -/
def download_using_ftp (netOk : Bool) (download_path file_name : String)
    (size : Nat) : Option Bool × String :=
  if netOk then
    if file_size_unit size = "KB" then
      (none, "[w] Unusable file transferred.")
    else
      (some true, joinPath download_path (file_name ++ ".mp4"))
  else
    (none, "[e] Error while transferring file")

/-! ## The queue consumer's dispatcher
(core/consumer/downloader.py, `compute`, lines 27-56)

A parsed download-job message is a record of the optional JSON fields the
dispatcher reads (each read is `json_data.get(key, None)`).  The branch
taken, together with the exact arguments handed to the connector it
invokes, is reified as a `ConnectorCall`; the `FTP TOOL` branch evaluates
only the pure expression `os.path.join(downloads, stored_filename)` and
discards it, so its constructor records just the field that expression
reads. -/

structure DownloadJob where
  access_type : Option String
  g_url : Option String
  stored_filename : Option String
  azure_account_name : Option String
  azure_account_key : Option String
  azure_container_name : Option String
  azure_blob_name : Option String
  remote_username : Option String
  remote_password : Option String
  remote_public_address : Option String
  remote_file : Option String
  s3_access_key : Option String
  s3_secret_key : Option String
  s3_url : Option String
  s3_bucket_name : Option String
  deriving DecidableEq, Repr

inductive ConnectorCall where
  | googleDrive (g_url stored_filename : Option String)
  | azure (account_name account_key container_name blob_name
      stored_filename : Option String)
  | ftp (username password public_address remote_file
      stored_filename : Option String)
  | s3 (access_key secret_key url stored_filename bucket_name : Option String)
  | ftpToolJoin (stored_filename : Option String)
  | noAction
  deriving DecidableEq, Repr

/-- Translation of `compute`: the chain of `if/elif` tests on
`json_data.get('access_type', None)`, each branch calling its connector
with the listed fields; a message matching no branch falls through with no
action and no error. -/
def compute (j : DownloadJob) : ConnectorCall :=
  if j.access_type = some "GCP" then
    ConnectorCall.googleDrive j.g_url j.stored_filename
  else if j.access_type = some "Microsoft" then
    ConnectorCall.azure j.azure_account_name j.azure_account_key
      j.azure_container_name j.azure_blob_name j.stored_filename
  else if j.access_type = some "FTP" then
    ConnectorCall.ftp j.remote_username j.remote_password
      j.remote_public_address j.remote_file j.stored_filename
  else if j.access_type = some "S3" then
    ConnectorCall.s3 j.s3_access_key j.s3_secret_key j.s3_url
      j.stored_filename j.s3_bucket_name
  else if j.access_type = some "FTP TOOL" then
    ConnectorCall.ftpToolJoin j.stored_filename
  else
    ConnectorCall.noAction

/-- Whether the dispatched branch invokes one of the download connectors
(`download_from_google_drive`, `download_from_azure`, `download_using_ftp`,
`access_file_update`).  The `FTP TOOL` branch and the unmatched fall-through
invoke none. -/
def invokes_connector : ConnectorCall → Bool
  | ConnectorCall.googleDrive _ _ => true
  | ConnectorCall.azure _ _ _ _ _ => true
  | ConnectorCall.ftp _ _ _ _ _ => true
  | ConnectorCall.s3 _ _ _ _ _ => true
  | ConnectorCall.ftpToolJoin _ => false
  | ConnectorCall.noAction => false

/-- Whether the dispatched branch can write a file into the downloads
directory: exactly the four connector-invoking branches do.  The `FTP TOOL`
branch body is a discarded pure path join and touches no local state. -/
def writes_local_file : ConnectorCall → Bool
  | ConnectorCall.googleDrive _ _ => true
  | ConnectorCall.azure _ _ _ _ _ => true
  | ConnectorCall.ftp _ _ _ _ _ => true
  | ConnectorCall.s3 _ _ _ _ _ => true
  | ConnectorCall.ftpToolJoin _ => false
  | ConnectorCall.noAction => false

/-! ## One iteration of the live-recording loop
(core/capture/live.py, `start_live_recording`, lines 90-106)

Durations are modelled as rationals.  The oracles: `camera_up` is the
result of the `camera_live` probe, `seg_size` the `file_size(file)` string
of the finished segment, `seg_duration` the duration the prober reports
for it, and `stop_secs` the wall-clock `now().second` value when the
transcoder exits. -/

structure LiveLoopState where
  duration : ℚ
  slept_duration : ℚ
  idx : Nat
  deriving DecidableEq, Repr

/-- Translation of the body of the `while True` loop: when the camera
answers the probe, one transcoder segment runs, the elapsed time is the
segment's reported duration unless its human-readable size is exactly
`"300.0 bytes"` (then the wall-clock seconds-of-minute value is used), and
that elapsed time plus the accumulated camera-down sleep is subtracted
from the remaining duration, with the sleep accumulator reset and the
segment index advanced; when the camera is down, `camera_timeout` is added
to the sleep accumulator. -/
def live_iteration (camera_up : Bool) (camera_timeout : ℚ) (seg_size : String)
    (seg_duration stop_secs : ℚ) (st : LiveLoopState) : LiveLoopState :=
  if camera_up then
    let old_duration := if seg_size = "300.0 bytes" then stop_secs
      else seg_duration
    { duration := st.duration - old_duration - st.slept_duration,
      slept_duration := 0,
      idx := st.idx + 1 }
  else
    { st with slept_duration := st.slept_duration + camera_timeout }

/-! ## The job orchestrator (core/turntable.py, `spin`)

File provenance is made symbolic: every external operation that produces
a new path on disk becomes a free constructor of `VFile`, so the identity
bookkeeping of `spin`'s lists (`upload_list`, `temp_list`, `trim_upload`)
is provable without knowing what the external tools write.  The
motion-analysis and face-redaction branches move their output back onto
the working copy's path (`shutil.move(cloned_file, temp_file)` followed by
`cloned_file = temp_file`), so at the path level they leave the working
name unchanged and introduce no new surviving path. -/

inductive VFile where
  /-- The stored download `os.path.join(downloads, stored_filename + ".mp4")`. -/
  | stored (stored_filename : String)
  /-- The file returned by `trigger_utc_capture` for a live order. -/
  | liveCapture (bucket order : String)
  /-- The working copy made by `rename_original_file(original, bucket, order)`. -/
  | renamedOriginal (f : VFile) (bucket order : String)
  /-- The secondary archival copy made by `create_copy`. -/
  | copy (f : VFile)
  /-- The audit sample produced by `trim_sample_section(file, rate)`. -/
  | sample (f : VFile) (rate : ℚ)
  /-- The final pre-processing name produced by `rename_aaaa_file(file,
  video_type(pc, pt, tc))`; the three booleans determine the suffix. -/
  | aaaa (f : VFile) (pc pt tc : Bool)
  /-- The output of `compress_video`. -/
  | compressed (f : VFile)
  /-- The i-th output of `trim_by_factor`. -/
  | trimByFactor (f : VFile) (i : Nat)
  /-- The i-th output of `trim_num_parts`. -/
  | trimNumParts (f : VFile) (i : Nat)
  /-- The i-th output of `trim_sub_sample`. -/
  | trimSubSample (f : VFile) (i : Nat)
  /-- The i-th output of `trim_by_points`. -/
  | trimByPoints (f : VFile) (i : Nat)
  deriving DecidableEq, Repr

/-- The fields of the processing-job JSON that decide `spin`'s list
bookkeeping.  `Option Bool` fields model `json_data.get(key, default)`
reads whose key may be absent. -/
structure Job where
  use_stored : Bool
  stored_filename : String
  sampling_rate : ℚ
  analyze_motion : Bool
  analyze_face : Bool
  perform_compression : Option Bool
  perform_trimming : Option Bool
  trim_compressed : Option Bool
  trim_type : String
  order_pk : Nat
  deriving DecidableEq, Repr

/-- A public URL returned by `upload_to_bucket(key, secret, bucket, file)`,
identified by the bucket and the uploaded file's provenance. -/
structure Url where
  bucket : String
  file : VFile
  deriving DecidableEq, Repr

/-- Translation of turntable.py lines 164-169: `trim_compressed` is read
from the payload (default true) when `perform_trimming` holds, and is
false otherwise. -/
def resolveTrimCompressed (j : Job) : Bool :=
  if j.perform_trimming.getD true then j.trim_compressed.getD true else false

/-- Translation of `trimming_callable` (turntable.py lines 35-74): dispatch
on `trim_type` to one of the four trimming strategies.  The strategies
themselves (core/process/trim.py) are external to the provided sources, so
each is abstracted as producing `n` provenance-tagged outputs; an unmatched
`trim_type` leaves the initial empty list. -/
def trimming_callable (trim_type : String) (n : Nat) (f : VFile) : List VFile :=
  if trim_type = "trim_by_factor" then (List.range n).map (VFile.trimByFactor f)
  else if trim_type = "trim_num_parts" then
    (List.range n).map (VFile.trimNumParts f)
  else if trim_type = "trim_sub_sample" then
    (List.range n).map (VFile.trimSubSample f)
  else if trim_type = "trim_by_points" then
    (List.range n).map (VFile.trimByPoints f)
  else []

/-- Acquisition step (turntable.py lines 114-135): a stored order points at
`downloads/<stored_filename>.mp4` (the success path has it present on
disk); a live order records through `trigger_utc_capture`. -/
def acquire (j : Job) (bucket order : String) : VFile :=
  if j.use_stored then VFile.stored j.stored_filename
  else VFile.liveCapture bucket order

/-- Everything observable that one successful `spin` run produces:
the lists it builds, the uploads, the CSV rows appended, the database rows
written, and the files removed by the cleanup loop. -/
structure SpinResult where
  archived_file : VFile
  sample_file : VFile
  final_file : VFile
  trim_upload : List VFile
  upload_list : List VFile
  urls : List Url
  csv_rows : List (List Url)
  db_rows : List (VFile × Url)
  removed : List VFile
  deriving DecidableEq, Repr

/-- Translation of the success path of `spin` (turntable.py lines 98-213),
with `bucket`/`order` the names computed at lines 106-113 and `n` the
oracle for how many clips the selected trimming strategy produces:

* acquire the footage, clone it (`rename_original_file`), create the
  archival copy (`create_copy`);
* motion analysis and face redaction move their result back onto the
  working path, leaving the name unchanged;
* unconditionally extract the audit sample and put it on `temp_list`;
* resolve `perform_compression` / `perform_trimming` (default true) and
  `trim_compressed`, rename to the final `aaaa` name, and append that
  renamed file to `upload_list` *before* compression reassigns
  `final_file`;
* when compressing, trim the compressed file iff `trim_compressed`;
  without compression, trim the renamed file iff `perform_trimming`;
  extend `upload_list` with the trim outputs;
* upload every `upload_list` entry in order, write the collected URLs as
  one CSV row, write one database row per (file, url) pair, extend
  `temp_list` with `upload_list` and remove every `temp_list` entry. -/
def spinSuccess (j : Job) (bucket order : String) (n : Nat) : SpinResult :=
  let original_file := acquire j bucket order
  let cloned_file := VFile.renamedOriginal original_file bucket order
  let archived_file := VFile.copy cloned_file
  let sample_file := VFile.sample cloned_file j.sampling_rate
  let pc := j.perform_compression.getD true
  let pt := j.perform_trimming.getD true
  let tc := resolveTrimCompressed j
  let final_file := VFile.aaaa cloned_file pc pt tc
  let trim_upload :=
    if pc then
      if tc then trimming_callable j.trim_type n (VFile.compressed final_file)
      else []
    else if pt then trimming_callable j.trim_type n final_file
    else []
  let upload_list := final_file :: trim_upload
  let urls := upload_list.map (fun f => Url.mk bucket f)
  let temp_list := sample_file :: upload_list
  { archived_file := archived_file,
    sample_file := sample_file,
    final_file := final_file,
    trim_upload := trim_upload,
    upload_list := upload_list,
    urls := urls,
    csv_rows := [urls],
    db_rows := upload_list.zip urls,
    removed := temp_list }

/-! ## `spin`'s outermost exception handling (turntable.py lines 214-219) -/

/-- How one `spin` invocation's body can end: a normal return, a
`KeyboardInterrupt`, or any other exception. -/
inductive PyEvent where
  | ret
  | keyboardInterrupt
  | exn (message : String)
  deriving DecidableEq, Repr

/-- The caller-observable outcome of `spin`'s `try/except` wrapper. -/
structure HandlerResult where
  /-- Whether `log.error` was called. -/
  logged_error : Bool
  /-- Whether `log.exception` was called. -/
  logged_exception : Bool
  /-- Whether `log.critical` was called. -/
  logged_critical : Bool
  /-- Holds `some c` when `exit(c)` was invoked, sending `SystemExit(c)` to
  the caller; `none` when `spin` returned normally. -/
  exit_code : Option Nat
  deriving DecidableEq, Repr

/-- Translation of the `except` clauses of `spin`: a `KeyboardInterrupt`
logs an error and calls `exit(0)`; any other `Exception` is caught, logged
via `log.exception` and reported via `log.critical`, and `spin` returns
normally with no result. -/
def spinHandler : PyEvent → HandlerResult
  | PyEvent.ret =>
      { logged_error := false, logged_exception := false,
        logged_critical := false, exit_code := none }
  | PyEvent.keyboardInterrupt =>
      { logged_error := true, logged_exception := false,
        logged_critical := false, exit_code := some 0 }
  | PyEvent.exn _ =>
      { logged_error := false, logged_exception := true,
        logged_critical := true, exit_code := none }

/-! ## Helper lemmas -/

/-- No output of `trimming_callable` is an archival copy: every produced
path is tagged with one of the four trimming strategies. -/
theorem copy_not_mem_trimming_callable (g f : VFile) (t : String) (n : Nat) :
    VFile.copy g ∉ trimming_callable t n f := by
  unfold trimming_callable
  split_ifs <;> simp

/-- The orchestrator's `trim_upload` list never contains an archival
copy. -/
theorem copy_not_mem_trim_upload (g : VFile) (j : Job) (bucket order : String)
    (n : Nat) : VFile.copy g ∉ (spinSuccess j bucket order n).trim_upload := by
  simp only [spinSuccess]
  split_ifs <;>
    first
      | simp
      | exact copy_not_mem_trimming_callable g _ j.trim_type n

/-! ## Claim theorems -/

/-- C2.  In `spin`, `trim_compressed` resolves to the payload's
`trim_compressed` value (default true) when `perform_trimming` holds and
to false otherwise; the renamed final file is always on the upload list
(it is its head); and the trimming strategy's outputs extend the upload
list exactly when `perform_compression ∧ trim_compressed` or
`¬perform_compression ∧ perform_trimming`, trimming the compressed file in
the former case and the renamed file in the latter. -/
theorem claim2_trim_gating (j : Job) (bucket order : String) (n : Nat) :
    resolveTrimCompressed j
      = (if j.perform_trimming.getD true then j.trim_compressed.getD true
         else false)
    ∧ (spinSuccess j bucket order n).final_file
        ∈ (spinSuccess j bucket order n).upload_list
    ∧ (spinSuccess j bucket order n).upload_list
      = (spinSuccess j bucket order n).final_file ::
        (if (j.perform_compression.getD true && resolveTrimCompressed j)
            || (!(j.perform_compression.getD true)
                && j.perform_trimming.getD true) then
          trimming_callable j.trim_type n
            (if j.perform_compression.getD true then
              VFile.compressed (spinSuccess j bucket order n).final_file
             else (spinSuccess j bucket order n).final_file)
         else []) := by
  refine ⟨rfl, ?_, ?_⟩
  · simp [spinSuccess]
  · cases hpc : j.perform_compression.getD true <;>
      cases hpt : j.perform_trimming.getD true <;>
        cases htc : resolveTrimCompressed j <;>
          simp [spinSuccess, hpc, hpt, htc]

/-- C9.  The secondary archival copy made at acquisition time is never
placed on the upload list nor on the cleanup list: it is neither uploaded
nor deleted, while the files removed are exactly the audit sample followed
by the upload-list files. -/
theorem claim9_archival_copy_untouched (j : Job) (bucket order : String)
    (n : Nat) :
    (spinSuccess j bucket order n).archived_file
      ∉ (spinSuccess j bucket order n).upload_list
    ∧ (spinSuccess j bucket order n).archived_file
      ∉ (spinSuccess j bucket order n).removed
    ∧ (spinSuccess j bucket order n).removed
      = (spinSuccess j bucket order n).sample_file
        :: (spinSuccess j bucket order n).upload_list := by
  have harch : ∃ g, (spinSuccess j bucket order n).archived_file
      = VFile.copy g := ⟨_, rfl⟩
  obtain ⟨g, hg⟩ := harch
  have hup : (spinSuccess j bucket order n).upload_list
      = (spinSuccess j bucket order n).final_file
        :: (spinSuccess j bucket order n).trim_upload := by
    simp [spinSuccess]
  have hfin : (spinSuccess j bucket order n).final_file
      ≠ VFile.copy g := by
    simp [spinSuccess]
  have hsam : (spinSuccess j bucket order n).sample_file
      ≠ VFile.copy g := by
    simp [spinSuccess]
  have hnup : VFile.copy g ∉ (spinSuccess j bucket order n).upload_list := by
    rw [hup]
    intro hmem
    rcases List.mem_cons.mp hmem with hmem | hmem
    · exact hfin hmem.symm
    · exact copy_not_mem_trim_upload g j bucket order n hmem
  have hrem : (spinSuccess j bucket order n).removed
      = (spinSuccess j bucket order n).sample_file
        :: (spinSuccess j bucket order n).upload_list := by
    simp [spinSuccess]
  refine ⟨hg ▸ hnup, ?_, hrem⟩
  rw [hg, hrem]
  intro hmem
  rcases List.mem_cons.mp hmem with hmem | hmem
  · exact hsam hmem.symm
  · exact hnup hmem

/-- The concrete compression-only stored-file job of claim C1:
`use_stored`, no motion analysis, no face redaction, compression on,
trimming off. -/
def c1Job : Job :=
  { use_stored := true, stored_filename := "stored_file", sampling_rate := 10,
    analyze_motion := false, analyze_face := false,
    perform_compression := some true, perform_trimming := some false,
    trim_compressed := none, trim_type := "trim_by_factor", order_pk := 0 }

/-- C1 is false on the code: for the compression-only stored-file job the
success path of `spin` uploads exactly one artifact and writes exactly one
database row — the audit sample is placed only on the cleanup list, never
on the upload list, so there are not two uploads and two rows. -/
theorem claim1_counterexample :
    ¬ ((spinSuccess c1Job "bkt" "ord" 5).upload_list.length = 2
       ∧ (spinSuccess c1Job "bkt" "ord" 5).db_rows.length = 2) := by
  decide

/-- C1 (amended).  For a successful `spin` run with `use_stored = true`,
motion and face analysis off, compression on and trimming off, the upload
list is exactly the renamed final file, there is exactly one collected
URL, exactly one database row and exactly one appended CSV row (holding
that single URL), and the files removed at cleanup are exactly the audit
sample and that uploaded file. -/
theorem claim1_amended_single_artifact (j : Job) (bucket order : String)
    (n : Nat)
    (hs : j.use_stored = true)
    (hm : j.analyze_motion = false)
    (hf : j.analyze_face = false)
    (hpc : j.perform_compression.getD true = true)
    (hpt : j.perform_trimming.getD true = false) :
    (spinSuccess j bucket order n).upload_list
      = [(spinSuccess j bucket order n).final_file]
    ∧ (spinSuccess j bucket order n).urls.length = 1
    ∧ (spinSuccess j bucket order n).db_rows.length = 1
    ∧ (spinSuccess j bucket order n).csv_rows
      = [(spinSuccess j bucket order n).urls]
    ∧ (spinSuccess j bucket order n).removed
      = [(spinSuccess j bucket order n).sample_file,
         (spinSuccess j bucket order n).final_file] := by
  have htc : resolveTrimCompressed j = false := by
    simp [resolveTrimCompressed, hpt]
  refine ⟨?_, ?_, ?_, ?_, ?_⟩ <;> simp [spinSuccess, hpc, hpt, htc]

/-- Witness for C1 (amended) at the concrete job `c1Job`. -/
theorem claim1_witness :
    (spinSuccess c1Job "bkt" "ord" 5).upload_list
      = [(spinSuccess c1Job "bkt" "ord" 5).final_file]
    ∧ (spinSuccess c1Job "bkt" "ord" 5).urls.length = 1
    ∧ (spinSuccess c1Job "bkt" "ord" 5).db_rows.length = 1
    ∧ (spinSuccess c1Job "bkt" "ord" 5).csv_rows
      = [(spinSuccess c1Job "bkt" "ord" 5).urls]
    ∧ (spinSuccess c1Job "bkt" "ord" 5).removed
      = [(spinSuccess c1Job "bkt" "ord" 5).sample_file,
         (spinSuccess c1Job "bkt" "ord" 5).final_file] :=
  claim1_amended_single_artifact c1Job "bkt" "ord" 5 rfl rfl rfl rfl rfl

/-- The unit chosen by the modelled `file_size` is `"KB"` exactly for byte
counts from 1024 up to (but excluding) 1048576. -/
theorem file_size_unit_eq_KB (size : Nat) :
    file_size_unit size = "KB" ↔ 1024 ≤ size ∧ size < 1048576 := by
  unfold file_size_unit
  split_ifs with h1 h2 h3 h4 h5
  · exact iff_of_false (by decide) (by omega)
  · exact iff_of_true rfl (by omega)
  · exact iff_of_false (by decide) (by omega)
  · exact iff_of_false (by decide) (by omega)
  · exact iff_of_false (by decide) (by omega)
  · exact iff_of_false (by decide) (by omega)

/-- C3 is false on the code: a completed fetch that wrote 300 bytes — far
under 1 MB — renders with the `"bytes"` unit, not `"KB"`, so all three
connectors return the success pair rather than the unusable-file failure
pair. -/
theorem claim3_counterexample :
    download_from_google_drive true "downloads" "f" 300
      = (some true, "downloads/f.mp4")
    ∧ download_from_azure true "downloads" "f" 300
      = (some true, "downloads/f.mp4")
    ∧ download_using_ftp true "downloads" "f" 300
      = (some true, "downloads/f.mp4")
    ∧ (300 : Nat) < 1048576 := by
  refine ⟨rfl, rfl, rfl, by omega⟩

/-- C3 (amended).  For a completed fetch, the three connectors return the
absent/unusable failure pair exactly when the written size is in the KB
range proper (at least 1 KB and under 1 MB); a written size below 1 KB or
of 1 MB and above yields the success pair with the local
`<file_name>.mp4` path. -/
theorem claim3_amended_kb_range (dp fn : String) (size : Nat) :
    (1024 ≤ size → size < 1048576 →
      download_from_google_drive true dp fn size
          = (none, "[w] Unusable file downloaded.")
      ∧ download_from_azure true dp fn size
          = (none, "[w] Unusable file downloaded.")
      ∧ download_using_ftp true dp fn size
          = (none, "[w] Unusable file transferred."))
    ∧ (size < 1024 ∨ 1048576 ≤ size →
      download_from_google_drive true dp fn size
          = (some true, joinPath dp (fn ++ ".mp4"))
      ∧ download_from_azure true dp fn size
          = (some true, joinPath dp (fn ++ ".mp4"))
      ∧ download_using_ftp true dp fn size
          = (some true, joinPath dp (fn ++ ".mp4"))) := by
  constructor
  · intro h1 h2
    have hk : file_size_unit size = "KB" :=
      (file_size_unit_eq_KB size).mpr ⟨h1, h2⟩
    refine ⟨?_, ?_, ?_⟩ <;>
      simp [download_from_google_drive, download_from_azure,
        download_using_ftp, hk]
  · intro h
    have hk : ¬ file_size_unit size = "KB" := by
      intro hk
      rcases (file_size_unit_eq_KB size).mp hk with ⟨a, b⟩
      rcases h with h | h <;> omega
    refine ⟨?_, ?_, ?_⟩ <;>
      simp [download_from_google_drive, download_from_azure,
        download_using_ftp, hk]

/-- Witness for C3 (amended) at a written size of 2048 bytes (2 KB). -/
theorem claim3_witness :
    download_from_google_drive true "d" "f" 2048
      = (none, "[w] Unusable file downloaded.")
    ∧ download_from_azure true "d" "f" 2048
      = (none, "[w] Unusable file downloaded.")
    ∧ download_using_ftp true "d" "f" 2048
      = (none, "[w] Unusable file transferred.") :=
  (claim3_amended_kb_range "d" "f" 2048).1 (by omega) (by omega)

/-- C4.  When the decoded basename of the URL's path equals its own
basename and equals the decode of the raw basename (the round-trip check),
`filename_from_url` returns that URL-decoded basename; when either check
fails, it raises `ValueError` (the `InvalidInput` signal) instead of
returning a name. -/
theorem claim4_filename_from_url (url : String) :
    ((basename (basename (unquote (urlsplitPath url)))
        = basename (unquote (urlsplitPath url))
      ∧ unquote (basename (urlsplitPath url))
        = basename (unquote (urlsplitPath url))) →
      filename_from_url url
        = Except.ok (basename (unquote (urlsplitPath url))))
    ∧ ((basename (basename (unquote (urlsplitPath url)))
          ≠ basename (unquote (urlsplitPath url))
        ∨ unquote (basename (urlsplitPath url))
          ≠ basename (unquote (urlsplitPath url))) →
      filename_from_url url = Except.error invalidUrlMsg) := by
  constructor
  · rintro ⟨h1, h2⟩
    have hcond : ¬(basename (basename (unquote (urlsplitPath url)))
          ≠ basename (unquote (urlsplitPath url))
        ∨ unquote (basename (urlsplitPath url))
          ≠ basename (unquote (urlsplitPath url))) := by
      rintro (hc | hc)
      · exact hc h1
      · exact hc h2
    simp only [filename_from_url]
    rw [if_neg hcond]
  · intro h
    simp only [filename_from_url]
    rw [if_pos h]

/-- Witness for C4 at the spec's example URL: the well-formed
`https://host/path/video.mp4` yields `video.mp4`. -/
theorem claim4_witness :
    filename_from_url "https://host/path/video.mp4"
      = Except.ok "video.mp4" :=
  (claim4_filename_from_url "https://host/path/video.mp4").1 ⟨rfl, rfl⟩

/-- C5.  The dispatcher routes each message by `access_type` to exactly
the matching connector with the message's own fields — `GCP` to the
Google Drive downloader, `Microsoft` to the Azure downloader, `FTP` to
the FTP fetcher, `S3` to the S3 ingest, `FTP TOOL` to its join-only
branch — and a message matching none of the five values takes no action
and raises nothing. -/
theorem claim5_dispatch (j : DownloadJob) :
    (j.access_type = some "GCP" →
      compute j = ConnectorCall.googleDrive j.g_url j.stored_filename)
    ∧ (j.access_type = some "Microsoft" →
      compute j = ConnectorCall.azure j.azure_account_name
        j.azure_account_key j.azure_container_name j.azure_blob_name
        j.stored_filename)
    ∧ (j.access_type = some "FTP" →
      compute j = ConnectorCall.ftp j.remote_username j.remote_password
        j.remote_public_address j.remote_file j.stored_filename)
    ∧ (j.access_type = some "S3" →
      compute j = ConnectorCall.s3 j.s3_access_key j.s3_secret_key
        j.s3_url j.stored_filename j.s3_bucket_name)
    ∧ (j.access_type = some "FTP TOOL" →
      compute j = ConnectorCall.ftpToolJoin j.stored_filename)
    ∧ (j.access_type ≠ some "GCP" → j.access_type ≠ some "Microsoft" →
      j.access_type ≠ some "FTP" → j.access_type ≠ some "S3" →
      j.access_type ≠ some "FTP TOOL" →
      compute j = ConnectorCall.noAction) := by
  refine ⟨fun h => by simp [compute, h], fun h => by simp [compute, h],
    fun h => by simp [compute, h], fun h => by simp [compute, h],
    fun h => by simp [compute, h],
    fun h1 h2 h3 h4 h5 => by simp [compute, h1, h2, h3, h4, h5]⟩

/-- A download-job message with every optional field absent. -/
def emptyDownloadJob : DownloadJob :=
  { access_type := none, g_url := none, stored_filename := none,
    azure_account_name := none, azure_account_key := none,
    azure_container_name := none, azure_blob_name := none,
    remote_username := none, remote_password := none,
    remote_public_address := none, remote_file := none,
    s3_access_key := none, s3_secret_key := none, s3_url := none,
    s3_bucket_name := none }

/-- The concrete Google-Drive message used to witness C5. -/
def c5Msg : DownloadJob :=
  { emptyDownloadJob with
    access_type := some "GCP",
    g_url := some "https://drive.google.com/open?id=abc",
    stored_filename := some "file1" }

/-- Witness for C5 at a concrete `GCP` message. -/
theorem claim5_witness :
    compute c5Msg
      = ConnectorCall.googleDrive
          (some "https://drive.google.com/open?id=abc") (some "file1") :=
  (claim5_dispatch c5Msg).1 rfl

/-- C6 is false on the code as stated: on a keyboard interrupt `spin`
calls `exit(0)`, an exit signal whose code is zero, not a non-zero-style
one. -/
theorem claim6_counterexample :
    (spinHandler PyEvent.keyboardInterrupt).exit_code = some 0 := rfl

/-- C6 (amended).  A keyboard/operator interrupt aborts the job with a
logged error and an exit signal whose code is zero (`exit(0)`); every
other exception raised during the run is caught, logged in full via
`log.exception`, reported as critical, and the job is abandoned with no
result and no exit signal; a normal run likewise sends no exit signal to
the caller. -/
theorem claim6_amended_handler :
    (spinHandler PyEvent.keyboardInterrupt).logged_error = true
    ∧ (spinHandler PyEvent.keyboardInterrupt).exit_code = some 0
    ∧ (∀ e : String,
        (spinHandler (PyEvent.exn e)).logged_exception = true
        ∧ (spinHandler (PyEvent.exn e)).logged_critical = true
        ∧ (spinHandler (PyEvent.exn e)).exit_code = none)
    ∧ (∀ ev : PyEvent, ev ≠ PyEvent.keyboardInterrupt →
        (spinHandler ev).exit_code = none) := by
  refine ⟨rfl, rfl, fun e => ⟨rfl, rfl, rfl⟩, fun ev hev => ?_⟩
  cases ev
  · rfl
  · exact absurd rfl hev
  · rfl

/-- Witness for C6 (amended): a normally returning body sends no exit
signal. -/
theorem claim6_witness : (spinHandler PyEvent.ret).exit_code = none :=
  claim6_amended_handler.2.2.2 PyEvent.ret (by decide)

/-- C7.  In a loop iteration that records a segment (camera up), the
elapsed time subtracted from the remaining duration is the segment's
reported duration unless the segment's human-readable size is exactly
`"300.0 bytes"`, in which case the wall-clock seconds-of-minute value is
subtracted instead; the accumulated camera-down sleep is subtracted as
well and the accumulator is reset to zero. -/
theorem claim7_live_iteration (camera_timeout : ℚ) (seg_size : String)
    (seg_duration stop_secs : ℚ) (st : LiveLoopState) :
    (seg_size ≠ "300.0 bytes" →
      live_iteration true camera_timeout seg_size seg_duration stop_secs st
        = { duration := st.duration - seg_duration - st.slept_duration,
            slept_duration := 0, idx := st.idx + 1 })
    ∧ (seg_size = "300.0 bytes" →
      live_iteration true camera_timeout seg_size seg_duration stop_secs st
        = { duration := st.duration - stop_secs - st.slept_duration,
            slept_duration := 0, idx := st.idx + 1 }) := by
  constructor <;> intro h <;> simp [live_iteration, h]

/-- Witness for C7: a healthy 100-second segment with 60 seconds of
accumulated camera-down sleep reduces a 300-second remainder to 140 and
resets the accumulator. -/
theorem claim7_witness :
    live_iteration true 30 "12.3 MB" 100 45
        { duration := 300, slept_duration := 60, idx := 1 }
      = { duration := 140, slept_duration := 0, idx := 2 } := by
  have h := (claim7_live_iteration 30 "12.3 MB" 100 45
    { duration := 300, slept_duration := 60, idx := 1 }).1 (by decide)
  exact h.trans (by norm_num)

/-- C8.  With no explicit filename and a public URL whose decoded last
path segment fails validation, `download_from_url` lets the `ValueError`
escape (the `except` clause catches only request/transport errors), and
the `(None, message)` failure pair arises only from a transport error. -/
theorem claim8_download_raises :
    (∀ url dp e : String, filename_from_url url = Except.error e →
      download_from_url true url none dp = DlResult.raises e)
    ∧ (∀ (transportOk : Bool) (url dp s : String) (fn : Option String),
      download_from_url transportOk url fn dp = DlResult.ret none s →
      transportOk = false) := by
  constructor
  · intro url dp e h
    simp [download_from_url, h]
  · intro transportOk url dp s fn h
    cases transportOk
    · rfl
    · exfalso
      cases fn
      · rcases hf : filename_from_url url with f | msg <;>
          simp [download_from_url, hf] at h
      · simp [download_from_url] at h

/-- Witness for C8 at a URL with an encoded path separator: the
`ValueError` escapes `download_from_url` rather than becoming the failure
pair. -/
theorem claim8_witness :
    download_from_url true "https://host/a%2Fb.mp4" none "downloads"
      = DlResult.raises invalidUrlMsg :=
  claim8_download_raises.1 "https://host/a%2Fb.mp4" "downloads"
    invalidUrlMsg rfl

/-- C10.  A message with `access_type = "FTP TOOL"` reaches the branch
that merely evaluates the pure `os.path.join(downloads, stored_filename)`
and discards it: no connector is invoked and no file is written locally.
-/
theorem claim10_ftptool_noop (j : DownloadJob)
    (h : j.access_type = some "FTP TOOL") :
    compute j = ConnectorCall.ftpToolJoin j.stored_filename
    ∧ invokes_connector (compute j) = false
    ∧ writes_local_file (compute j) = false := by
  have hc : compute j = ConnectorCall.ftpToolJoin j.stored_filename := by
    simp [compute, h]
  exact ⟨hc, by rw [hc]; rfl, by rw [hc]; rfl⟩

/-- The concrete FTP-TOOL message used to witness C10. -/
def c10Msg : DownloadJob :=
  { emptyDownloadJob with
    access_type := some "FTP TOOL",
    stored_filename := some "file2" }

/-- Witness for C10 at a concrete `FTP TOOL` message. -/
theorem claim10_witness :
    compute c10Msg = ConnectorCall.ftpToolJoin (some "file2")
    ∧ invokes_connector (compute c10Msg) = false
    ∧ writes_local_file (compute c10Msg) = false :=
  claim10_ftptool_noop c10Msg rfl

end VPE
